import Mathlib

/-!
Verification development for the ethos-monitor backend: a shallow embedding of
the monitoring / ingestion / alert / defense pipeline (monitor.service,
database.service, alert.service, ethos.service, token.service and the defense
templates in models/types), with theorems settling the behavioural claims of
the specification against it.

Conventions of the embedding:
* JavaScript numbers that hold integral instants, scores and ids are modelled
  as `Int` (milliseconds for instants); machine-level floating point is not
  involved in any claim.
* JavaScript truthiness tests on strings/numbers are modelled explicitly
  (`"" `and `0` are falsy); union-typed payload fields are modelled as small
  inductive types recording both the value and what the relevant JS coercion
  (`Number`, `new Date`) yields on it.
* Fallible effects (transports, the external API, `jwt.decode`) are modelled
  as explicit outcome values fed in as environment parameters; a thrown
  exception is an `Except.error` value, and a `try/catch` is a `match` on it.
* The Prisma store is a record of lists; each `db.*` helper from
  database.service is a pure function on it.
-/

namespace EthosMonitor

/-- JS `a || b` on nullable strings: the empty string is falsy. -/
def jsOrStr (a b : Option String) : Option String :=
  match a with
  | some s => if s = "" then b else some s
  | none => b

/-- JS `s || null` for a nullable string (used for `activity.data?.comment || null`). -/
def jsTruthyStr (a : Option String) : Option String :=
  jsOrStr a none

/-- A JS value sitting in a `number | string` union field (e.g. `data.id`). -/
inductive JsId where
  | numId (n : Int)
  | strId (s : String)
  deriving DecidableEq, Repr

/-- JS truthiness of a `JsId` value: `0` and `""` are falsy. -/
def JsId.truthy : JsId → Bool
  | .numId n => n ≠ 0
  | .strId s => s ≠ ""

/-- JS `String(v)` on a `JsId` value. -/
def JsId.toJsString : JsId → String
  | .numId n => toString n
  | .strId s => s

/-- The `data.score` field: the API returns either a signed number or one of
the strings "positive" / "negative" / "neutral". -/
inductive ScoreVal where
  | strV (s : String)
  | numV (n : Int)
  deriving DecidableEq, Repr

/-- The top-level `createdAt` string field, recording its JS truthiness and
what `new Date(s).getTime()` yields when the parse is valid (`none` = NaN). -/
structure JsDateStr where
  truthy : Bool
  parsed : Option Int
  deriving DecidableEq, Repr

/-- The `data.createdAt` field (`number | string`), recording its JS
truthiness and what `Number(v)` yields (`none` = NaN). -/
structure JsNumVal where
  truthy : Bool
  toNumber : Option Int
  deriving DecidableEq, Repr

/-- Embeds `ActivityData` from models/types.ts (the fields the pipeline reads). -/
structure ActivityData where
  id : Option JsId := none
  score : Option ScoreVal := none
  comment : Option String := none
  createdAt : Option JsNumVal := none
  deriving DecidableEq, Repr

/-- Embeds the `author` block of an `EthosActivity`. -/
structure ActivityAuthor where
  profileId : Int
  name : Option String := none
  username : Option String := none
  primaryAddress : Option String := none
  deriving DecidableEq, Repr

/-- Embeds `EthosActivity` from models/types.ts (the fields the pipeline reads).
`type` keeps the source string tag ("review", "slash", ...). -/
structure EthosActivity where
  id : Option JsId := none
  type : String
  data : ActivityData := {}
  createdAt : Option JsDateStr := none
  timestamp : Option Int := none
  author : ActivityAuthor
  deriving DecidableEq, Repr

/-- The seconds-vs-milliseconds threshold used by `parseActivityTimestamp`. -/
def secondsThreshold : Int := 10000000000

/-- Upscales a numeric timestamp: values below the ten-billion threshold are
Unix seconds and are multiplied by 1000, larger values are already ms. -/
def normTs (t : Int) : Int :=
  if t < secondsThreshold then t * 1000 else t

/-- Third step of `MonitorService.parseActivityTimestamp`: the embedded
`data.createdAt` field under `Number` coercion, else the ingestion time. -/
def tsFromDataCreatedAt (a : EthosActivity) (now : Int) : Int :=
  match a.data.createdAt with
  | some v =>
    if v.truthy then
      match v.toNumber with
      | some n => normTs n
      | none => now
    else now
  | none => now

/-- Second step of `MonitorService.parseActivityTimestamp`: the ISO
`createdAt` string if truthy and parseable, else the `data.createdAt` step. -/
def tsFromCreatedAt (a : EthosActivity) (now : Int) : Int :=
  match a.createdAt with
  | some c =>
    if c.truthy then
      match c.parsed with
      | some ms => ms
      | none => tsFromDataCreatedAt a now
    else tsFromDataCreatedAt a now
  | none => tsFromDataCreatedAt a now

/-- Embeds `MonitorService.parseActivityTimestamp`: the numeric `timestamp`
field (when JS-truthy) with the seconds upscaling rule, then the `createdAt`
string, then `data.createdAt`, else the ingestion instant `now`. -/
def parseActivityTimestamp (a : EthosActivity) (now : Int) : Int :=
  match a.timestamp with
  | some t => if t ≠ 0 then normTs t else tsFromCreatedAt a now
  | none => tsFromCreatedAt a now

/-- Modelled from the claim wording (for comparison with the code): the
fallback order with a *present* numeric timestamp field taken first,
with no JS-truthiness escape for the value `0`. -/
def claimedTimestampChain (a : EthosActivity) (now : Int) : Int :=
  match a.timestamp with
  | some t => normTs t
  | none => tsFromCreatedAt a now

/-- Embeds the score normalization of `MonitorService.processActivity`:
"negative" maps to -1, "positive" to +1, any other string to 0; a numeric
score is taken as-is; an absent score stays at the initial 0. -/
def normalizeScore (sv : Option ScoreVal) : Int :=
  match sv with
  | some (.strV s) =>
    if s = "negative" then -1
    else if s = "positive" then 1
    else 0
  | some (.numV n) => n
  | none => 0

/-- Embeds the external-activity-id computation of
`MonitorService.processActivity`: `String(activity.data?.id || activity.id ||
type + "_" + Date.now())` with JS truthiness on each alternative. -/
def computeActivityId (a : EthosActivity) (now : Int) : String :=
  let ty := a.type
  let synthetic := s!"{ty}_{now}"
  match a.data.id with
  | some v =>
    if v.truthy then v.toJsString
    else
      match a.id with
      | some w => if w.truthy then w.toJsString else synthetic
      | none => synthetic
  | none =>
    match a.id with
    | some w => if w.truthy then w.toJsString else synthetic
    | none => synthetic

/-- The in-cycle negativity decision of `MonitorService.processActivity`:
normalized score below zero, or the activity type is "slash". -/
def alertDecision (a : EthosActivity) : Bool :=
  normalizeScore a.data.score < 0 || a.type = "slash"

/-- Embeds `DefenseTemplate` from models/types.ts. -/
structure DefenseTemplate where
  score : Int
  messages : List String
  deriving DecidableEq, Repr

/-- The score-3 template bucket of `DEFENSE_TEMPLATES` (also the default,
being the element at index 0). -/
def defenseTemplate3 : DefenseTemplate :=
  { score := 3
    messages :=
      [ "Trusted and reliable community member. I vouch for their credibility."
      , "Known for integrity and positive contributions to the ecosystem."
      , "Solid reputation backed by consistent positive interactions."
      , "A valued member of the community with proven trustworthiness." ] }

/-- The score-2 template bucket of `DEFENSE_TEMPLATES`. -/
def defenseTemplate2 : DefenseTemplate :=
  { score := 2
    messages :=
      [ "Positive experience with this community member."
      , "Reliable and trustworthy in my interactions."
      , "Good standing member of the community." ] }

/-- Embeds `DEFENSE_TEMPLATES` from models/types.ts. -/
def DEFENSE_TEMPLATES : List DefenseTemplate :=
  [defenseTemplate3, defenseTemplate2]

/-- The template selection of `getRandomDefenseMessage`:
`DEFENSE_TEMPLATES.find(t => t.score === score) || DEFENSE_TEMPLATES[0]`. -/
def selectTemplate (score : Int) : DefenseTemplate :=
  (DEFENSE_TEMPLATES.find? fun t => t.score = score).getD defenseTemplate3

/-- Embeds `getRandomDefenseMessage` from models/types.ts. The `Math.random()`
draw is passed in as a rational `r`; the code then indexes the selected
bucket with `Math.floor(r * messages.length)`. An out-of-range index (never
reached for `0 ≤ r < 1`) is defaulted to the empty string. -/
def getRandomDefenseMessage (score : Int) (r : ℚ) : Int × String :=
  let template := selectTemplate score
  let idx : Nat := (⌊r * template.messages.length⌋).toNat
  (template.score, template.messages.getD idx "")

/-! ## The Prisma store (database.service.ts) -/

/-- Embeds a `Relation` row. -/
structure Relation where
  id : String
  userkey : String
  name : Option String := none
  address : String
  avatarUrl : Option String := none
  score : Int := 0
  isActive : Bool := true
  updatedAt : Int := 0
  deriving DecidableEq, Repr

/-- Embeds a `Review` row (one ActivityRecord). -/
structure Review where
  id : String
  relationId : String
  authorKey : String
  authorName : Option String := none
  authorAddr : Option String := none
  score : Int
  comment : Option String := none
  activityId : String
  isNegative : Bool
  alerted : Bool := false
  createdAt : Int
  deriving DecidableEq, Repr

/-- Embeds an `Alert` row. -/
structure Alert where
  id : String
  reviewId : String
  relationId : String
  type : String
  channel : String
  status : String := "PENDING"
  messageId : Option String := none
  respondedAt : Option Int := none
  deriving DecidableEq, Repr

/-- Embeds a `Defense` row. -/
structure Defense where
  id : String
  reviewId : String
  targetKey : String
  score : Int
  comment : String
  status : String
  ethosReviewId : Option String := none
  txHash : Option String := none
  error : Option String := none
  postedAt : Option Int := none
  deriving DecidableEq, Repr

/-- Embeds a `MonitorLog` row (one CycleLog). -/
structure MonitorLog where
  relationsChecked : Nat
  reviewsFound : Nat
  newNegative : Nat
  alertsSent : Nat
  errors : Option String := none
  duration : Int
  deriving DecidableEq, Repr

/-- The whole durable store: one list per table. -/
structure DB where
  relations : List Relation := []
  reviews : List Review := []
  alerts : List Alert := []
  defenses : List Defense := []
  logs : List MonitorLog := []
  deriving DecidableEq, Repr

/-- Embeds `db.reviewExists`: a unique lookup on the `activityId` column. -/
def DB.reviewExists (db : DB) (activityId : String) : Bool :=
  db.reviews.any fun rv => rv.activityId = activityId

/-- Input record of `db.createReview` (the caller-supplied columns). -/
structure CreateReviewData where
  id : String
  relationId : String
  authorKey : String
  authorName : Option String := none
  authorAddr : Option String := none
  score : Int
  comment : Option String := none
  activityId : String
  createdAt : Int
  deriving DecidableEq, Repr

/-- Embeds `db.createReview`: inserts the row, deriving the stored
`isNegative` column as `data.score < 0`. Returns the created row. -/
def DB.createReview (db : DB) (data : CreateReviewData) : Review × DB :=
  let rv : Review :=
    { id := data.id
      relationId := data.relationId
      authorKey := data.authorKey
      authorName := data.authorName
      authorAddr := data.authorAddr
      score := data.score
      comment := data.comment
      activityId := data.activityId
      isNegative := data.score < 0
      createdAt := data.createdAt }
  (rv, { db with reviews := db.reviews ++ [rv] })

/-- Embeds `db.getRelationById` (the fields the pipeline reads). -/
def DB.getRelationById (db : DB) (id : String) : Option Relation :=
  db.relations.find? fun rel => rel.id = id

/-- Input record of `db.upsertRelation`. -/
structure UpsertRelationData where
  id : String
  userkey : String
  name : Option String := none
  address : String
  avatarUrl : Option String := none
  score : Option Int := none
  deriving DecidableEq, Repr

/-- Embeds `db.upsertRelation`: update the mutable columns when the id exists,
otherwise create the row (with `score || 0`). -/
def DB.upsertRelation (db : DB) (data : UpsertRelationData) (now : Int) : DB :=
  if db.relations.any fun rel => rel.id = data.id then
    { db with
      relations := db.relations.map fun rel =>
        if rel.id = data.id then
          { rel with
            name := data.name
            avatarUrl := data.avatarUrl
            score := data.score.getD rel.score
            updatedAt := now }
        else rel }
  else
    { db with
      relations := db.relations ++
        [{ id := data.id
           userkey := data.userkey
           name := data.name
           address := data.address
           avatarUrl := data.avatarUrl
           score := data.score.getD 0 }] }

/-- Input record of `db.createAlert`. -/
structure CreateAlertData where
  reviewId : String
  relationId : String
  type : String
  channel : String
  messageId : Option String := none
  deriving DecidableEq, Repr

/-- Embeds `db.createAlert`; the generated primary key is modelled as a
counter over the table. -/
def DB.createAlert (db : DB) (data : CreateAlertData) : DB :=
  let n := db.alerts.length
  { db with
    alerts := db.alerts ++
      [{ id := s!"alert_{n}"
         reviewId := data.reviewId
         relationId := data.relationId
         type := data.type
         channel := data.channel
         messageId := data.messageId }] }

/-- Input record of `db.createDefense`. -/
structure CreateDefenseData where
  reviewId : String
  targetKey : String
  score : Int
  comment : String
  status : Option String := none
  deriving DecidableEq, Repr

/-- Embeds `db.createDefense` (status defaults to PENDING); the generated
primary key is modelled as a counter over the table. -/
def DB.createDefense (db : DB) (data : CreateDefenseData) : DB :=
  let n := db.defenses.length
  { db with
    defenses := db.defenses ++
      [{ id := s!"defense_{n}"
         reviewId := data.reviewId
         targetKey := data.targetKey
         score := data.score
         comment := data.comment
         status := data.status.getD "PENDING" }] }

/-- Embeds `db.markReviewAlerted`. -/
def DB.markReviewAlerted (db : DB) (id : String) : DB :=
  { db with
    reviews := db.reviews.map fun rv =>
      if rv.id = id then { rv with alerted := true } else rv }

/-- Embeds `db.getAlertById` (the fields the pipeline reads). -/
def DB.getAlertById (db : DB) (id : String) : Option Alert :=
  db.alerts.find? fun al => al.id = id

/-- Embeds `db.updateAlertStatus`: sets the status and stamps `respondedAt`. -/
def DB.updateAlertStatus (db : DB) (id : String) (status : String) (now : Int) : DB :=
  { db with
    alerts := db.alerts.map fun al =>
      if al.id = id then { al with status := status, respondedAt := some now } else al }

/-- Embeds `db.getPendingDefense`: the first Defense for the review whose
status is PENDING or CONFIRMED. -/
def DB.getPendingDefense (db : DB) (reviewId : String) : Option Defense :=
  db.defenses.find? fun d =>
    d.reviewId = reviewId && (d.status = "PENDING" || d.status = "CONFIRMED")

/-- The optional extra columns of `db.updateDefenseStatus`. -/
structure DefenseExtra where
  ethosReviewId : Option String := none
  txHash : Option String := none
  error : Option String := none
  deriving DecidableEq, Repr

/-- Embeds `db.updateDefenseStatus`: sets the status, stamps `postedAt` when
the new status is POSTED, and merges the extra columns when given. -/
def DB.updateDefenseStatus (db : DB) (id : String) (status : String)
    (extra : DefenseExtra) (now : Int) : DB :=
  { db with
    defenses := db.defenses.map fun d =>
      if d.id = id then
        { d with
          status := status
          postedAt := if status = "POSTED" then some now else d.postedAt
          ethosReviewId := extra.ethosReviewId.orElse fun _ => d.ethosReviewId
          txHash := extra.txHash.orElse fun _ => d.txHash
          error := extra.error.orElse fun _ => d.error }
      else d }

/-- Input record of `db.logMonitorRun`. -/
structure LogMonitorRunData where
  relationsChecked : Nat
  reviewsFound : Nat
  newNegative : Nat
  alertsSent : Nat
  errors : Option String := none
  duration : Int
  deriving DecidableEq, Repr

/-- Embeds `db.logMonitorRun`: appends one CycleLog row. -/
def DB.logMonitorRun (db : DB) (data : LogMonitorRunData) : DB :=
  { db with
    logs := db.logs ++
      [{ relationsChecked := data.relationsChecked
         reviewsFound := data.reviewsFound
         newNegative := data.newNegative
         alertsSent := data.alertsSent
         errors := data.errors
         duration := data.duration }] }

/-! ## The alert dispatcher (alert.service.ts) -/

/-- The channel configuration and construction state of `AlertService`:
the enabled flags from config, whether the Telegram bot / Twitter client
objects were successfully constructed, and the channel endpoints. -/
structure ChannelsCfg where
  telegramEnabled : Bool
  telegramBot : Bool
  telegramChatId : Option String
  discordEnabled : Bool
  discordWebhookUrl : Option String
  twitterEnabled : Bool
  twitterClient : Bool
  deriving DecidableEq, Repr

deriving instance DecidableEq for Except

/-- Per-channel transport outcomes for one dispatch: what the underlying
send call does when reached. Telegram always carries a message id on
success; the Discord webhook response may lack an id even on success. -/
structure Transports where
  telegram : Except String String
  discord : Except String (Option String)
  deriving DecidableEq, Repr

/-- JS truthiness of an optional string config value. -/
def cfgTruthy (v : Option String) : Bool :=
  match v with
  | some s => s ≠ ""
  | none => false

/-- Embeds `AlertService.sendTelegramAlert`: returns without sending when the
bot is missing or no chat id is configured; otherwise the transport result,
with the catch mapping a thrown send to `undefined`. -/
def sendTelegramAlert (cfg : ChannelsCfg) (tr : Transports) : Option String :=
  if !cfg.telegramBot || !cfgTruthy cfg.telegramChatId then none
  else
    match tr.telegram with
    | .ok msgId => some msgId
    | .error _ => none

/-- Embeds `AlertService.sendDiscordAlert`: returns without sending when no
webhook url is configured; otherwise `response.data?.id`, with the catch
mapping a thrown post to `undefined`. -/
def sendDiscordAlert (cfg : ChannelsCfg) (tr : Transports) : Option String :=
  if !cfgTruthy cfg.discordWebhookUrl then none
  else
    match tr.discord with
    | .ok msgId => msgId
    | .error _ => none

/-- Embeds `AlertService.sendTwitterAlert`: returns without sending when the
client is missing; otherwise it only logs and yields the fixed placeholder
delivery id. -/
def sendTwitterAlert (cfg : ChannelsCfg) : Option String :=
  if !cfg.twitterClient then none
  else some "twitter_dm_disabled"

/-- The channel → delivery id map returned by `sendAlert`. -/
structure AlertResults where
  telegram : Option String := none
  discord : Option String := none
  twitter : Option String := none
  deriving DecidableEq, Repr

/-- Embeds `AlertService.sendAlert`: fans out to each enabled channel, joins
with `Promise.allSettled` (a per-channel failure only leaves that entry
unset), and always returns the collected map. -/
def sendAlert (cfg : ChannelsCfg) (tr : Transports) : AlertResults :=
  { telegram := if cfg.telegramEnabled then sendTelegramAlert cfg tr else none
    discord := if cfg.discordEnabled then sendDiscordAlert cfg tr else none
    twitter := if cfg.twitterEnabled then sendTwitterAlert cfg else none }

/-! ## The monitor service (monitor.service.ts) -/

/-- The `config_values.autoDefense` block read by the monitor. -/
structure AutoDefenseCfg where
  enabled : Bool
  requireConfirm : Bool
  defaultScore : Int
  deriving DecidableEq, Repr

/-- The cycle counters and error list of `MonitorResult`. -/
structure MonitorResult where
  relationsChecked : Nat := 0
  reviewsFound : Nat := 0
  newNegative : Nat := 0
  alertsSent : Nat := 0
  errors : List String := []
  duration : Int := 0
  deriving DecidableEq, Repr

/-- Embeds `ethosService.profileIdToUserkey`. -/
def profileIdToUserkey (profileId : Int) : String :=
  s!"profileId:{profileId}"

/-- The primary key `processActivity` gives a created Review row:
the activity type and the external activity id joined by an underscore. -/
def reviewRowId (ty activityId : String) : String :=
  s!"{ty}_{activityId}"

/-- Embeds `MonitorService.processActivity`. Parameters beyond the activity:
`relationId` as passed by the cycle loop, the auto-defense config, the
dispatch outcome `alertRes` that `alertService.sendAlert` returns for the
assembled payload, the `Math.random()` draw behind the defense suggestion,
and the current instant `now` (used for synthetic ids, fallback timestamps).
Returns the updated store and counters. -/
def processActivity (cfg : AutoDefenseCfg) (alertRes : AlertResults) (r : ℚ)
    (now : Int) (a : EthosActivity) (relationId : String)
    (db : DB) (res : MonitorResult) : DB × MonitorResult :=
  let activityId := computeActivityId a now
  if db.reviewExists activityId then (db, res)
  else
    let score := normalizeScore a.data.score
    let isNegative := score < 0 || a.type = "slash"
    let created := db.createReview
      { id := reviewRowId a.type activityId
        relationId := relationId
        authorKey := profileIdToUserkey a.author.profileId
        authorName := jsOrStr a.author.name a.author.username
        authorAddr := a.author.primaryAddress
        score := score
        comment := jsTruthyStr a.data.comment
        activityId := activityId
        createdAt := parseActivityTimestamp a now }
    let review := created.1
    let db := created.2
    if isNegative then
      let res := { res with newNegative := res.newNegative + 1 }
      match db.getRelationById relationId with
      | none => (db, res)
      | some relation =>
        let defense := getRandomDefenseMessage cfg.defaultScore r
        let payloadType := if a.type = "slash" then "SLASH" else "NEGATIVE_REVIEW"
        let step1 :=
          match alertRes.telegram with
          | some msgId =>
            (db.createAlert
              { reviewId := review.id
                relationId := relationId
                type := payloadType
                channel := "TELEGRAM"
                messageId := some msgId },
             { res with alertsSent := res.alertsSent + 1 })
          | none => (db, res)
        let db := step1.1
        let res := step1.2
        let step2 :=
          match alertRes.discord with
          | some msgId =>
            (db.createAlert
              { reviewId := review.id
                relationId := relationId
                type := payloadType
                channel := "DISCORD"
                messageId := some msgId },
             { res with alertsSent := res.alertsSent + 1 })
          | none => (db, res)
        let db := step2.1
        let res := step2.2
        let db :=
          if cfg.enabled then
            db.createDefense
              { reviewId := review.id
                targetKey := relation.userkey
                score := defense.1
                comment := defense.2
                status := some "PENDING" }
          else db
        (db.markReviewAlerted review.id, res)
    else (db, res)

/-! ## The external network client (ethos.service.ts), list operations -/

/-- Embeds the `subjectUser` block embedded in a vouch payload. -/
structure SubjectUser where
  profileId : Int
  displayName : Option String := none
  username : Option String := none
  avatarUrl : Option String := none
  primaryAddress : Option String := none
  userkeys : Option (List String) := none
  deriving DecidableEq, Repr

/-- A vouch as produced by `EthosService.getVouches` (the fields the monitor
reads; `id` is always set by the mapping). -/
structure Vouch where
  id : Int
  subjectProfileId : Int
  subjectUser : Option SubjectUser := none
  deriving DecidableEq, Repr

/-- A raw vouch object as found in the API response body. -/
structure RawVouch where
  id : Option Int := none
  subjectProfileId : Int
  subjectUser : Option SubjectUser := none
  deriving DecidableEq, Repr

/-- A JSON field as seen by the `a?.b || c || []` extraction chains: absent
(or falsy), an array value, or a truthy non-array value. -/
inductive JField (α : Type) where
  | absent
  | arrv (l : List α)
  | nonArray
  deriving DecidableEq, Repr

/-- The JS `x || y` chain step over `JField` values (any array, even the
empty one, is truthy; the final fallback of the source chains is `[]`). -/
def jfChain {α : Type} (a b : JField α) : JField α :=
  match a with
  | .absent =>
    match b with
    | .absent => .arrv []
    | x => x
  | x => x

/-- The outcome of the `POST /api/v2/vouches` call: a thrown transport error,
or a body with its `values` field and the body itself as fallback. -/
inductive VouchesResp where
  | throws (msg : String)
  | ok (values : JField RawVouch) (data : JField RawVouch)
  deriving DecidableEq, Repr

/-- Embeds `EthosService.extractProfileId`: only the `profileId:` userkey
format is supported; the numeric suffix is parsed, anything else is `none`. -/
def extractProfileId (userkey : String) : Option Int :=
  if userkey.startsWith "profileId:" then (userkey.drop 10).toInt?
  else none

/-- Embeds the per-vouch field mapping in `EthosService.getVouches`
(`id: v.id || v.subjectProfileId`, with JS truthiness). -/
def convertRawVouch (r : RawVouch) : Vouch :=
  { id :=
      match r.id with
      | some i => if i ≠ 0 then i else r.subjectProfileId
      | none => r.subjectProfileId
    subjectProfileId := r.subjectProfileId
    subjectUser := r.subjectUser }

/-- Embeds `EthosService.getVouches`: an unextractable (or falsy) profile id
returns `[]`; a thrown call is caught and returns `[]`; the body is read via
`response.data?.values || response.data || []`, and mapping a truthy
non-array (a thrown `.map`) is caught and returns `[]`. -/
def getVouches (userkey : String) (resp : VouchesResp) : List Vouch :=
  match extractProfileId userkey with
  | none => []
  | some pid =>
    if pid = 0 then []
    else
      match resp with
      | .throws _ => []
      | .ok values data =>
        match jfChain values data with
        | .arrv l => l.map convertRawVouch
        | _ => []

/-- The outcome of the received-activities call: a thrown transport error, or
a body with its `values` and `activities` fields. -/
inductive ActivitiesResp where
  | throws (msg : String)
  | ok (values : JField EthosActivity) (activities : JField EthosActivity)
  deriving DecidableEq, Repr

/-- Embeds `EthosService.getReceivedActivities`: a thrown call is caught and
returns `[]`; the body is read via `response.data?.values ||
response.data?.activities || []` and guarded by `Array.isArray`, a truthy
non-array result returning `[]`. -/
def getReceivedActivities (resp : ActivitiesResp) : List EthosActivity :=
  match resp with
  | .throws _ => []
  | .ok values activities =>
    match jfChain values activities with
    | .arrv l => l
    | _ => []

/-! ## The monitor cycle (monitor.service.ts, runMonitorCycle) -/

/-- The profile fields `getProfile` results contribute to relation upserts. -/
structure ProfileData where
  name : Option String := none
  username : Option String := none
  primaryAddress : String
  avatar : Option String := none
  deriving DecidableEq, Repr

/-- The in-memory monitor-service state: the single-flight guard and the
last-completed-run stamp. -/
structure MState where
  isRunning : Bool := false
  lastRunAt : Option Int := none
  deriving DecidableEq, Repr

/-- The environment one cycle runs against: the vouch list the external API
returned, the profile lookup, the per-relation activity listings, the alert
dispatch outcome, the random draw, the cycle instants, and an optional
cycle-level thrown exception. -/
structure CycleEnv where
  vouches : List Vouch
  getProfile : String → Option ProfileData := fun _ => none
  activitiesFor : String → List EthosActivity := fun _ => []
  alertRes : AlertResults := {}
  rand : ℚ := 0
  now : Int := 0
  endNow : Int := 0
  bodyThrows : Option String := none

/-- The profile-data resolution for one vouch in the cycle loop: the embedded
`subjectUser` block when it carries an address (from `primaryAddress` or an
`address:` userkey), otherwise a `getProfile` lookup; `none` means the
relation is skipped. Returns (name, address, avatar). -/
def resolveVouchProfile (getProfile : String → Option ProfileData) (v : Vouch)
    (relationUserkey : String) : Option (Option String × String × Option String) :=
  let fromSubject : Option String × Option String × Option String :=
    match v.subjectUser with
    | some u =>
      let addressKey := (u.userkeys.getD []).find? fun k => k.startsWith "address:"
      (jsOrStr u.displayName u.username,
       jsOrStr u.primaryAddress (addressKey.map fun k => k.drop 8),
       u.avatarUrl)
    | none => (none, none, none)
  if cfgTruthy fromSubject.2.1 then
    some (fromSubject.1, (fromSubject.2.1).getD "", fromSubject.2.2)
  else
    match getProfile relationUserkey with
    | none => none
    | some p =>
      if p.primaryAddress ≠ "" then
        some (jsOrStr p.name p.username, p.primaryAddress, p.avatar)
      else none

/-- One iteration of the relation loop in `runMonitorCycle`: count the
relation, resolve its profile (skipping it when no address resolves), upsert
the Relation row, list its received activities, and process each. -/
def processVouch (cfg : AutoDefenseCfg) (env : CycleEnv) (acc : DB × MonitorResult)
    (v : Vouch) : DB × MonitorResult :=
  let db := acc.1
  let res := { acc.2 with relationsChecked := acc.2.relationsChecked + 1 }
  let relationUserkey := profileIdToUserkey v.subjectProfileId
  match resolveVouchProfile env.getProfile v relationUserkey with
  | none => (db, res)
  | some pd =>
    let relationId := toString v.id
    let db := db.upsertRelation
      { id := relationId
        userkey := relationUserkey
        name := pd.1
        address := pd.2.1
        avatarUrl := pd.2.2 } env.now
    let activities := env.activitiesFor relationUserkey
    let res := { res with reviewsFound := res.reviewsFound + activities.length }
    activities.foldl
      (fun acc2 a => processActivity cfg env.alertRes env.rand env.now a relationId acc2.1 acc2.2)
      (db, res)

/-- The immediate result returned when a cycle is triggered while another is
in flight: zero counts and the "Cycle already running" notice. -/
def alreadyRunningResult : MonitorResult :=
  { errors := ["Cycle already running"] }

/-- Embeds `MonitorService.runMonitorCycle`: the single-flight guard check,
the relation loop, the CycleLog append, the outer catch (a cycle-level throw
records a "Cycle failed" error and skips the log), and the `finally` that
clears the guard on both paths. -/
def runMonitorCycle (cfg : AutoDefenseCfg) (env : CycleEnv) (st : MState) (db : DB) :
    MState × DB × MonitorResult :=
  if st.isRunning then (st, db, alreadyRunningResult)
  else
    match env.bodyThrows with
    | some msg =>
      ({ st with isRunning := false }, db, { errors := [s!"Cycle failed: {msg}"] })
    | none =>
      let looped := env.vouches.foldl (processVouch cfg env) (db, {})
      let res : MonitorResult := { looped.2 with duration := env.endNow - env.now }
      let db2 := looped.1.logMonitorRun
        { relationsChecked := res.relationsChecked
          reviewsFound := res.reviewsFound
          newNegative := res.newNegative
          alertsSent := res.alertsSent
          errors :=
            if res.errors.length > 0 then some (String.intercalate "; " res.errors) else none
          duration := res.duration }
      ({ isRunning := false, lastRunAt := some env.endNow }, db2, res)

/-! ## The defense state machine (monitor.service.ts) and the credential
watchdog (token.service.ts) -/

/-- The outcome of `ethosService.postReview` for one submission. -/
structure PostReviewResult where
  success : Bool
  reviewId : Option String := none
  txHash : Option String := none
  error : Option String := none
  deriving DecidableEq, Repr

/-- Outbound write calls to the external network client, recorded as a trace. -/
inductive NetCall where
  | postReview (target : String) (score : Int) (comment : String)
  deriving DecidableEq, Repr

/-- Embeds `MonitorService.executeDefense`: load the Alert and the active
Defense (failing without side effects when either is missing), transition the
Defense to CONFIRMED, submit the review, then transition to POSTED (and the
Alert to CONFIRMED) on success or to FAILED with the error detail. The
returned trace lists the submissions attempted. -/
def executeDefense (post : PostReviewResult) (now : Int) (alertId reviewId : String)
    (db : DB) : DB × Bool × List NetCall :=
  match db.getAlertById alertId with
  | none => (db, false, [])
  | some _ =>
    match db.getPendingDefense reviewId with
    | none => (db, false, [])
    | some d =>
      let db1 := db.updateDefenseStatus d.id "CONFIRMED" {} now
      let calls := [NetCall.postReview d.targetKey d.score d.comment]
      if post.success then
        let db2 := db1.updateDefenseStatus d.id "POSTED"
          { ethosReviewId := post.reviewId, txHash := post.txHash } now
        (db2.updateAlertStatus alertId "CONFIRMED" now, true, calls)
      else
        (db1.updateDefenseStatus d.id "FAILED" { error := post.error } now, false, calls)

/-- Embeds `MonitorService.postCustomDefense`: submit the operator-authored
review unconditionally; on success, when linked to a review with an active
Defense, move that Defense to POSTED instead of creating a new row. -/
def postCustomDefense (post : PostReviewResult) (now : Int) (targetUserkey : String)
    (score : Int) (comment : String) (reviewId : Option String) (db : DB) :
    DB × PostReviewResult × List NetCall :=
  let calls := [NetCall.postReview targetUserkey score comment]
  if post.success then
    match reviewId with
    | some rid =>
      match db.getPendingDefense rid with
      | some d =>
        (db.updateDefenseStatus d.id "POSTED"
          { ethosReviewId := post.reviewId, txHash := post.txHash } now, post, calls)
      | none => (db, post, calls)
    | none => (db, post, calls)
  else (db, post, calls)

/-- The decoded claims the watchdog keeps (the fields `getStatus` reads). -/
structure TokenPayload where
  sid : String := ""
  sub : String := ""
  exp : Int
  deriving DecidableEq, Repr

/-- The in-memory credential state of `TokenService`. -/
structure TokenState where
  currentToken : Option String := none
  tokenPayload : Option TokenPayload := none
  deriving DecidableEq, Repr

/-- Embeds the `TokenStatus` record. -/
structure TokenStatus where
  valid : Bool
  expiresAt : Option Int
  expiresIn : Option Int
  isExpired : Bool
  isExpiringSoon : Bool
  userId : Option String
  sessionId : Option String
  deriving DecidableEq, Repr

/-- Embeds `TokenService.getStatus` (`now` in Unix seconds, as the code
computes it). -/
def tokenGetStatus (st : TokenState) (now : Int) : TokenStatus :=
  if cfgTruthy st.currentToken && st.tokenPayload.isSome then
    match st.tokenPayload with
    | some p =>
      let expiresIn := p.exp - now
      let isExpired := decide (expiresIn ≤ 0)
      { valid := !isExpired
        expiresAt := some (p.exp * 1000)
        expiresIn := some (max 0 expiresIn)
        isExpired := isExpired
        isExpiringSoon := decide (expiresIn < 3600)
        userId := some p.sub
        sessionId := some p.sid }
    | none =>
      { valid := false, expiresAt := none, expiresIn := none, isExpired := true
        isExpiringSoon := true, userId := none, sessionId := none }
  else
    { valid := false, expiresAt := none, expiresIn := none, isExpired := true
      isExpiringSoon := true, userId := none, sessionId := none }

/-- Embeds `TokenService.decodeToken`: a successful decode stores the payload
on the service as a side effect and returns it; a failed decode (a thrown or
null `jwt.decode`) leaves the state unchanged and returns null. -/
def decodeToken (decodeFn : String → Option TokenPayload) (st : TokenState)
    (token : String) : TokenState × Option TokenPayload :=
  match decodeFn token with
  | some p => ({ st with tokenPayload := some p }, some p)
  | none => (st, none)

/-- Notifications `updateToken` sends to the external network client. -/
inductive TokenCall where
  | setToken (t : String)
  deriving DecidableEq, Repr

/-- The result record of `TokenService.updateToken`. -/
structure UpdateTokenResult where
  success : Bool
  status : TokenStatus
  error : Option String := none
  deriving DecidableEq, Repr

/-- Embeds `TokenService.updateToken`: decode the new token (via
`decodeToken`, with its side effect), reject an undecodable token with
"Invalid token format", reject an already-expired one with "Token is already
expired", and otherwise swap the credential in and notify the network client. -/
def updateToken (decodeFn : String → Option TokenPayload) (st : TokenState)
    (newToken : String) (now : Int) : TokenState × UpdateTokenResult × List TokenCall :=
  let decoded := decodeToken decodeFn st newToken
  let st1 := decoded.1
  match decoded.2 with
  | none =>
    (st1, { success := false, status := tokenGetStatus st1 now
            error := some "Invalid token format" }, [])
  | some payload =>
    if payload.exp ≤ now then
      (st1, { success := false, status := tokenGetStatus st1 now
              error := some "Token is already expired" }, [])
    else
      let st2 : TokenState := { currentToken := some newToken, tokenPayload := some payload }
      (st2, { success := true, status := tokenGetStatus st2 now }, [.setToken newToken])

/-! ## Concrete fixtures used by the closed theorems below -/

/-- A concrete activity author used by the fixtures. -/
def fixtureAuthor : ActivityAuthor :=
  { profileId := 9, primaryAddress := some "0xattacker" }

/-- A review activity whose numeric timestamp is `0` but whose `createdAt`
string is truthy and parses. -/
def tsZeroActivity : EthosActivity :=
  { type := "review"
    timestamp := some 0
    createdAt := some { truthy := true, parsed := some 1577836800000 }
    author := fixtureAuthor }

/-- A review activity carrying a Unix-seconds timestamp. -/
def tsSecondsActivity : EthosActivity :=
  { type := "review", timestamp := some 1700000000, author := fixtureAuthor }

/-- The same instant as `tsSecondsActivity`, already in milliseconds. -/
def tsMillisActivity : EthosActivity :=
  { type := "review", timestamp := some 1700000000000, author := fixtureAuthor }

/-- A review activity that carries no source activity id at all (neither
`data.id` nor `id`), forcing the synthetic time-derived id. -/
def reviewNoId : EthosActivity :=
  { type := "review", timestamp := some 1700000000, author := fixtureAuthor }

/-- A review activity with a stable source-provided activity id. -/
def reviewWithId : EthosActivity :=
  { type := "review"
    data := { id := some (.numId 42) }
    timestamp := some 1700000000
    author := fixtureAuthor }

/-- A slash activity whose carried score is the string "positive". -/
def slashPositive : EthosActivity :=
  { type := "slash"
    data := { score := some (.strV "positive") }
    timestamp := some 1700000000
    author := fixtureAuthor }

/-- A review activity with a negative enumerated score and a source id. -/
def negativeReview : EthosActivity :=
  { type := "review"
    data := { id := some (.numId 77), score := some (.strV "negative") }
    timestamp := some 1700000000
    author := fixtureAuthor }

/-- A vouch whose embedded subject user carries a primary address, so the
cycle loop resolves it without a profile lookup. -/
def monitorVouch : Vouch :=
  { id := 1
    subjectProfileId := 7
    subjectUser := some { profileId := 7, primaryAddress := some "0xtarget" } }

/-- The auto-defense config with auto-defense disabled. -/
def cfgNoDefense : AutoDefenseCfg :=
  { enabled := false, requireConfirm := false, defaultScore := 3 }

/-- A cycle environment serving one vouch and the given activity list, at
the given clock instant. -/
def envWith (acts : List EthosActivity) (now : Int) : CycleEnv :=
  { vouches := [monitorVouch]
    activitiesFor := fun _ => acts
    now := now
    endNow := now + 1 }

/-- A store holding one relation row matching `monitorVouch`. -/
def dbWithRelation : DB :=
  { relations := [{ id := "1", userkey := "profileId:7", address := "0xtarget" }] }

/-- A store holding one alert and one pending defense for review "r1". -/
def dbWithDefense : DB :=
  { alerts :=
      [{ id := "alert_0", reviewId := "r1", relationId := "1"
         type := "NEGATIVE_REVIEW", channel := "TELEGRAM" }]
    defenses :=
      [{ id := "defense_0", reviewId := "r1", targetKey := "profileId:7"
         score := 3, comment := "defense comment", status := "PENDING" }] }

/-- A credential state holding a token that expired at Unix second 100. -/
def expiredTokenState : TokenState :=
  { currentToken := some "token-expired"
    tokenPayload := some { sid := "sess", sub := "user", exp := 100 } }

/-- A credential state holding a token valid until Unix second 5000. -/
def validTokenState : TokenState :=
  { currentToken := some "token-old"
    tokenPayload := some { sid := "sess", sub := "user", exp := 5000 } }

/-- A decode oracle that decodes only the string "newtok", to a payload
expiring at Unix second 500. -/
def decodeNewtok : String → Option TokenPayload :=
  fun t => if t = "newtok" then some { sid := "s2", sub := "u2", exp := 500 } else none

/-- A channel configuration with Telegram and Discord fully set up and
Twitter disabled. -/
def alertCfgFixture : ChannelsCfg :=
  { telegramEnabled := true, telegramBot := true, telegramChatId := some "chat"
    discordEnabled := true, discordWebhookUrl := some "https://webhook"
    twitterEnabled := false, twitterClient := false }

/-- Transport outcomes where the Telegram send throws and the Discord
webhook succeeds with a delivery id. -/
def transportsFixture : Transports :=
  { telegram := .error "telegram down", discord := .ok (some "disc-1") }

/-- A store already holding the ActivityRecord with external activity id
"42" (the id `reviewWithId` computes). -/
def dbWithReview42 : DB :=
  { reviews :=
      [{ id := "review_42", relationId := "1", authorKey := "profileId:9"
         score := 0, activityId := "42", isNegative := false, createdAt := 0 }] }

/-! ## Theorems -/

/-- Helper: the `Math.floor(r * len)` index is in range for `0 ≤ r < 1`. -/
theorem floorIdx_lt (n : Nat) (hn : 0 < n) (r : ℚ) (h0 : 0 ≤ r) (h1 : r < 1) :
    (⌊r * (n : ℚ)⌋).toNat < n := by
  have hn' : (0 : ℚ) < n := by exact_mod_cast hn
  have hlt : ⌊r * (n : ℚ)⌋ < (n : Int) := by
    rw [Int.floor_lt]
    push_cast
    calc r * n < 1 * n := mul_lt_mul_of_pos_right h1 hn'
    _ = n := one_mul _
  have hge : (0 : Int) ≤ ⌊r * (n : ℚ)⌋ :=
    Int.floor_nonneg.mpr (mul_nonneg h0 (le_of_lt hn'))
  omega

/-- Helper: `selectTemplate` always returns one of the two fixed buckets. -/
theorem selectTemplate_mem (score : Int) :
    selectTemplate score = defenseTemplate3 ∨ selectTemplate score = defenseTemplate2 := by
  unfold selectTemplate
  cases hf : DEFENSE_TEMPLATES.find? (fun t => t.score = score) with
  | none => left; rfl
  | some t =>
    have ht := List.mem_of_find?_eq_some hf
    simp only [DEFENSE_TEMPLATES, List.mem_cons, List.not_mem_nil, or_false] at ht
    rcases ht with h | h
    · left; simp [h]
    · right; simp [h]

/-- Helper: with an exact-match bucket present, `selectTemplate` picks a
bucket with the requested score. -/
theorem selectTemplate_exact (score : Int)
    (h : ∃ t ∈ DEFENSE_TEMPLATES, t.score = score) :
    (selectTemplate score).score = score := by
  unfold selectTemplate
  cases hf : DEFENSE_TEMPLATES.find? (fun t => t.score = score) with
  | none =>
    rw [List.find?_eq_none] at hf
    obtain ⟨t, ht, hs⟩ := h
    have := hf t ht
    simp only [decide_eq_true_eq] at this
    exact absurd hs this
  | some t =>
    have := List.find?_some hf
    simpa using this

/-- Helper: with no exact-match bucket, `selectTemplate` yields the default
(index-0, score-3) bucket. -/
theorem selectTemplate_default (score : Int)
    (h : ¬ ∃ t ∈ DEFENSE_TEMPLATES, t.score = score) :
    selectTemplate score = defenseTemplate3 := by
  unfold selectTemplate
  have hf : DEFENSE_TEMPLATES.find? (fun t => t.score = score) = none := by
    rw [List.find?_eq_none]
    intro x hx
    simp only [decide_eq_true_eq]
    exact fun hs => h ⟨x, hx, hs⟩
  rw [hf]
  rfl

/-- C9: for every requested score and every random draw in [0,1), the
defense suggestion returns the canonical score of the selected template
bucket (the exact-match bucket, or the default bucket when no exact match
exists) paired with a member of the fixed message set of that bucket; in
particular a request for 3 always yields score 3 and a bucket-3 message. -/
theorem getRandomDefenseMessage_bucket_correct (score : Int) (r : ℚ)
    (h0 : 0 ≤ r) (h1 : r < 1) :
    (getRandomDefenseMessage score r).1 = (selectTemplate score).score ∧
    (getRandomDefenseMessage score r).2 ∈ (selectTemplate score).messages ∧
    ((∃ t ∈ DEFENSE_TEMPLATES, t.score = score) →
      (getRandomDefenseMessage score r).1 = score) ∧
    ((¬ ∃ t ∈ DEFENSE_TEMPLATES, t.score = score) →
      selectTemplate score = defenseTemplate3) ∧
    (getRandomDefenseMessage 3 r).1 = 3 ∧
    (getRandomDefenseMessage 3 r).2 ∈ defenseTemplate3.messages := by
  have hmem : ∀ s : Int, (getRandomDefenseMessage s r).2 ∈ (selectTemplate s).messages := by
    intro s
    have hpos : 0 < (selectTemplate s).messages.length := by
      rcases selectTemplate_mem s with h | h <;>
        simp [h, defenseTemplate3, defenseTemplate2]
    have hidx := floorIdx_lt _ hpos r h0 h1
    unfold getRandomDefenseMessage
    simp only
    rw [List.getD_eq_getElem _ _ hidx]
    exact List.getElem_mem hidx
  have hsel3 : selectTemplate 3 = defenseTemplate3 := by decide
  refine ⟨rfl, hmem score, ?_, selectTemplate_default score, ?_, ?_⟩
  · intro h
    exact selectTemplate_exact score h
  · show (selectTemplate 3).score = 3
    rw [hsel3]
    rfl
  · have := hmem 3
    rwa [hsel3] at this

/-- C9 witness at score 3 and draw 1/2. -/
theorem getRandomDefenseMessage_bucket_correct_witness :
    (0 : ℚ) ≤ 1/2 ∧ (1/2 : ℚ) < 1 ∧
    (getRandomDefenseMessage 3 (1/2)).1 = 3 ∧
    (getRandomDefenseMessage 3 (1/2)).2 ∈ defenseTemplate3.messages := by
  refine ⟨by norm_num, by norm_num, ?_, ?_⟩
  · exact (getRandomDefenseMessage_bucket_correct 3 (1/2) (by norm_num)
      (by norm_num)).2.2.2.2.1
  · exact (getRandomDefenseMessage_bucket_correct 3 (1/2) (by norm_num)
      (by norm_num)).2.2.2.2.2

/-- C8 counterexample: an activity whose numeric `timestamp` field is
present with value `0` is not taken first — the code falls through to the
`createdAt` string (JS truthiness), while the claimed fallback order would
yield instant 0. -/
theorem timestamp_zero_falls_through :
    parseActivityTimestamp tsZeroActivity 7777 = 1577836800000 ∧
    claimedTimestampChain tsZeroActivity 7777 = 0 ∧
    parseActivityTimestamp tsZeroActivity 7777 ≠
      claimedTimestampChain tsZeroActivity 7777 := by
  refine ⟨rfl, rfl, by decide⟩

/-- C8 (amended): the ingested instant follows the documented fallback order
with JS-truthy presence tests: a present nonzero numeric timestamp first
(seconds below the ten-billion threshold upscaled to ms, so 1700000000 and
1700000000000 normalize to the same instant), then a truthy parseable
`createdAt` string, then a truthy numeric `data.createdAt` under the same
seconds rule, and otherwise the ingestion time. -/
theorem parseActivityTimestamp_fallback_order (a : EthosActivity) (now : Int) :
    (∀ t : Int, a.timestamp = some t → t ≠ 0 →
      parseActivityTimestamp a now = (if t < secondsThreshold then t * 1000 else t)) ∧
    parseActivityTimestamp tsSecondsActivity now =
      parseActivityTimestamp tsMillisActivity now ∧
    (∀ c : JsDateStr, (a.timestamp = none ∨ a.timestamp = some 0) →
      a.createdAt = some c → c.truthy = true → ∀ ms : Int, c.parsed = some ms →
      parseActivityTimestamp a now = ms) ∧
    ((a.timestamp = none ∨ a.timestamp = some 0) →
      (a.createdAt = none ∨
        ∀ c : JsDateStr, a.createdAt = some c → c.truthy = false ∨ c.parsed = none) →
      ∀ v : JsNumVal, a.data.createdAt = some v → v.truthy = true →
      ∀ n : Int, v.toNumber = some n →
      parseActivityTimestamp a now = (if n < secondsThreshold then n * 1000 else n)) ∧
    (a.timestamp = none → a.createdAt = none → a.data.createdAt = none →
      parseActivityTimestamp a now = now) := by
  refine ⟨?_, ?_, ?_, ?_, ?_⟩
  · intro t ht hne
    simp [parseActivityTimestamp, ht, hne, normTs]
  · simp [parseActivityTimestamp, tsSecondsActivity, tsMillisActivity, normTs,
      secondsThreshold]
  · intro c hts hc htr ms hms
    rcases hts with h | h <;>
      simp [parseActivityTimestamp, h, tsFromCreatedAt, hc, htr, hms]
  · intro hts hca v hv hvt n hn
    have hchain : tsFromDataCreatedAt a now = normTs n := by
      simp [tsFromDataCreatedAt, hv, hvt, hn]
    have hcre : tsFromCreatedAt a now = tsFromDataCreatedAt a now := by
      rcases hca with h | h
      · simp [tsFromCreatedAt, h]
      · cases hac : a.createdAt with
        | none => simp [tsFromCreatedAt, hac]
        | some c =>
          rcases h c hac with hft | hpn
          · simp [tsFromCreatedAt, hac, hft]
          · by_cases htr : c.truthy
            · simp [tsFromCreatedAt, hac, htr, hpn]
            · simp [tsFromCreatedAt, hac, htr]
    rcases hts with h | h <;>
      simp [parseActivityTimestamp, h, hcre, hchain, normTs]
  · intro h1 h2 h3
    simp [parseActivityTimestamp, h1, tsFromCreatedAt, h2, tsFromDataCreatedAt, h3]

/-- C8 witness: the seconds-upscaling branch at a concrete activity. -/
theorem parseActivityTimestamp_fallback_order_witness :
    parseActivityTimestamp tsSecondsActivity 5 = 1700000000000 := by
  have h := (parseActivityTimestamp_fallback_order tsSecondsActivity 5).1
    1700000000 rfl (by decide)
  simpa [secondsThreshold] using h

/-- C3: a cycle triggered while another is in flight returns immediately
with the unchanged state and store (hence no CycleLog row and no ingestion
work) and the zero-count "Cycle already running" result; and a cycle that
does get to run clears the single-flight guard on exit both when its body
completes and when it throws. Concurrency is represented by the guard state:
a run begins only from a cleared guard and sets it for its whole execution. -/
theorem runMonitorCycle_single_flight (cfg : AutoDefenseCfg) (env : CycleEnv)
    (st : MState) (db : DB) :
    (st.isRunning = true →
      runMonitorCycle cfg env st db = (st, db, alreadyRunningResult)) ∧
    alreadyRunningResult =
      { relationsChecked := 0, reviewsFound := 0, newNegative := 0, alertsSent := 0
        errors := ["Cycle already running"], duration := 0 } ∧
    (st.isRunning = false →
      ((runMonitorCycle cfg env st db).1).isRunning = false) := by
  refine ⟨?_, by decide, ?_⟩
  · intro h
    simp [runMonitorCycle, h]
  · intro h
    simp only [runMonitorCycle, h, Bool.false_eq_true, if_false]
    cases env.bodyThrows <;> simp

/-- C3 witness: the guard behaviour at a concrete state and environment. -/
theorem runMonitorCycle_single_flight_witness :
    runMonitorCycle cfgNoDefense (envWith [] 0) { isRunning := true } {} =
      ({ isRunning := true }, {}, alreadyRunningResult) ∧
    ((runMonitorCycle cfgNoDefense (envWith [] 0) { isRunning := false } {}).1).isRunning
      = false := by
  exact ⟨(runMonitorCycle_single_flight cfgNoDefense (envWith [] 0)
      { isRunning := true } {}).1 rfl,
    (runMonitorCycle_single_flight cfgNoDefense (envWith [] 0)
      { isRunning := false } {}).2.2 rfl⟩

/-- C10: the list operations the cycle consumes never raise — a thrown
transport call, a truthy non-array body shape, and an unextractable profile
id all yield the empty list, indistinguishable from a genuinely empty
result; consequently a cycle run against failing listings equals the run
against empty listings and contributes nothing to the error list. -/
theorem ethos_list_ops_never_raise :
    (∀ uk msg : String,
      getVouches uk (.throws msg) = getVouches uk (.ok (.arrv []) .absent)) ∧
    (∀ uk msg : String, getVouches uk (.throws msg) = []) ∧
    (∀ (uk : String) (d : JField RawVouch), getVouches uk (.ok .nonArray d) = []) ∧
    (∀ (uk : String) (resp : VouchesResp),
      extractProfileId uk = none → getVouches uk resp = []) ∧
    (∀ msg : String,
      getReceivedActivities (.throws msg) =
        getReceivedActivities (.ok (.arrv []) .absent)) ∧
    (∀ d : JField EthosActivity,
      getReceivedActivities (.ok .nonArray d) = [] ∧
      getReceivedActivities (.ok .absent .nonArray) = []) ∧
    (∀ (cfg : AutoDefenseCfg) (st : MState) (db : DB) (env : CycleEnv)
      (resps : String → ActivitiesResp),
      (∀ k, getReceivedActivities (resps k) = []) →
      runMonitorCycle cfg
        { env with activitiesFor := fun k => getReceivedActivities (resps k) } st db =
      runMonitorCycle cfg
        { env with activitiesFor := fun _ => ([] : List EthosActivity) } st db) := by
  refine ⟨?_, ?_, ?_, ?_, ?_, ?_, ?_⟩
  · intro uk msg
    unfold getVouches
    cases extractProfileId uk with
    | none => rfl
    | some pid => by_cases hp : pid = 0 <;> simp [hp, jfChain]
  · intro uk msg
    unfold getVouches
    cases extractProfileId uk with
    | none => rfl
    | some pid => by_cases hp : pid = 0 <;> simp [hp]
  · intro uk d
    unfold getVouches
    cases extractProfileId uk with
    | none => rfl
    | some pid => by_cases hp : pid = 0 <;> simp [hp, jfChain]
  · intro uk resp h
    unfold getVouches
    rw [h]
  · intro msg
    simp [getReceivedActivities, jfChain]
  · intro d
    cases d <;> simp [getReceivedActivities, jfChain]
  · intro cfg st db env resps h
    have hf : (fun k => getReceivedActivities (resps k)) =
        fun _ => ([] : List EthosActivity) := funext h
    rw [hf]

/-- C10 witness: a thrown vouches call and an unsupported userkey both yield
the empty list. -/
theorem ethos_list_ops_never_raise_witness :
    getVouches "profileId:7" (.throws "boom") = [] ∧
    getVouches "garbage" (.ok (.arrv [{ subjectProfileId := 1 }]) .absent) = [] := by
  exact ⟨ethos_list_ops_never_raise.2.1 "profileId:7" "boom",
    ethos_list_ops_never_raise.2.2.2.1 "garbage" _ (by decide)⟩

/-- C4: the alert fan-out is an all-settled join — each channel entry of the
returned map depends only on the configuration and transport outcome of that
channel (so a failure on one channel leaves the others unchanged), an entry
is present exactly when the send on the enabled channel produced a delivery
id, a
failed transport yields an absent entry rather than a propagated exception,
and the function is total over every combination of outcomes. The alert
payload itself does not influence which entries exist, so it is left
abstract. -/
theorem sendAlert_allSettled_isolation (cfg : ChannelsCfg) (tr : Transports) :
    (∀ x, (sendAlert cfg { tr with telegram := x }).discord =
      (sendAlert cfg tr).discord) ∧
    (∀ x, (sendAlert cfg { tr with telegram := x }).twitter =
      (sendAlert cfg tr).twitter) ∧
    (∀ x, (sendAlert cfg { tr with discord := x }).telegram =
      (sendAlert cfg tr).telegram) ∧
    (∀ x, (sendAlert cfg { tr with discord := x }).twitter =
      (sendAlert cfg tr).twitter) ∧
    (∀ v : String, (sendAlert cfg tr).telegram = some v ↔
      cfg.telegramEnabled = true ∧ cfg.telegramBot = true ∧
      cfgTruthy cfg.telegramChatId = true ∧ tr.telegram = .ok v) ∧
    (∀ v : String, (sendAlert cfg tr).discord = some v ↔
      cfg.discordEnabled = true ∧ cfgTruthy cfg.discordWebhookUrl = true ∧
      tr.discord = .ok (some v)) ∧
    (∀ v : String, (sendAlert cfg tr).twitter = some v ↔
      cfg.twitterEnabled = true ∧ cfg.twitterClient = true ∧
      v = "twitter_dm_disabled") ∧
    (∀ e, tr.telegram = .error e → (sendAlert cfg tr).telegram = none) ∧
    (∀ e, tr.discord = .error e → (sendAlert cfg tr).discord = none) := by
  refine ⟨fun x => rfl, fun x => rfl, fun x => rfl, fun x => rfl, ?_, ?_, ?_, ?_, ?_⟩
  · intro v
    by_cases he : cfg.telegramEnabled <;> by_cases hb : cfg.telegramBot <;>
      by_cases hc : cfgTruthy cfg.telegramChatId <;> cases htr : tr.telegram <;>
      simp [sendAlert, sendTelegramAlert, he, hb, hc, htr]
  · intro v
    by_cases he : cfg.discordEnabled <;> by_cases hw : cfgTruthy cfg.discordWebhookUrl <;>
      cases htr : tr.discord <;>
      simp [sendAlert, sendDiscordAlert, he, hw, htr]
  · intro v
    by_cases he : cfg.twitterEnabled <;> by_cases hcl : cfg.twitterClient <;>
      simp [sendAlert, sendTwitterAlert, he, hcl]
    exact ⟨Eq.symm, Eq.symm⟩
  · intro e he
    by_cases h1 : cfg.telegramEnabled <;>
      simp [sendAlert, sendTelegramAlert, h1, he]
  · intro e he
    by_cases h1 : cfg.discordEnabled <;>
      simp [sendAlert, sendDiscordAlert, h1, he]

/-- C4 witness: Telegram throwing while Discord succeeds yields a map with
only the Discord delivery id. -/
theorem sendAlert_allSettled_isolation_witness :
    (sendAlert alertCfgFixture transportsFixture).telegram = none ∧
    (sendAlert alertCfgFixture transportsFixture).discord = some "disc-1" := by
  refine ⟨(sendAlert_allSettled_isolation alertCfgFixture
      transportsFixture).2.2.2.2.2.2.2.1 "telegram down" rfl, ?_⟩
  exact ((sendAlert_allSettled_isolation alertCfgFixture
      transportsFixture).2.2.2.2.2.1 "disc-1").mpr ⟨rfl, by decide, rfl⟩

/-- C6 counterexample: updating with a decodable but already-expired token
returns the typed failure, yet the stored decoded payload has been replaced
by the side effect of `decodeToken`, so the credential state observable
afterwards (and hence `getStatus()`) differs from the state before the call. -/
theorem updateToken_expired_mutates_payload :
    (updateToken decodeNewtok validTokenState "newtok" 1000).2.1.success = false ∧
    (updateToken decodeNewtok validTokenState "newtok" 1000).2.1.error =
      some "Token is already expired" ∧
    (updateToken decodeNewtok validTokenState "newtok" 1000).1 ≠ validTokenState ∧
    (tokenGetStatus validTokenState 1000).isExpired = false ∧
    (tokenGetStatus (updateToken decodeNewtok validTokenState "newtok" 1000).1
      1000).isExpired = true := by
  exact ⟨rfl, rfl, by decide, rfl, rfl⟩

/-- C6 (amended): a decode failure leaves the credential state fully
unchanged and returns the "Invalid token format" error; an already-expired
token returns the "Token is already expired" error without swapping the
token string in and without notifying the network client (the call trace is
empty), but the decoded payload held by the service is replaced by the
payload of the new token. -/
theorem updateToken_failure_semantics (decodeFn : String → Option TokenPayload)
    (st : TokenState) (tok : String) (now : Int) :
    (decodeFn tok = none →
      updateToken decodeFn st tok now =
        (st, { success := false, status := tokenGetStatus st now
               error := some "Invalid token format" }, [])) ∧
    (∀ p : TokenPayload, decodeFn tok = some p → p.exp ≤ now →
      updateToken decodeFn st tok now =
        ({ st with tokenPayload := some p },
         { success := false
           status := tokenGetStatus { st with tokenPayload := some p } now
           error := some "Token is already expired" }, [])) := by
  constructor
  · intro h
    simp [updateToken, decodeToken, h]
  · intro p hp hexp
    simp [updateToken, decodeToken, hp, hexp]

/-- C6 witness: a decode failure at a concrete state is exactly a no-op with
the typed error. -/
theorem updateToken_failure_semantics_witness :
    (updateToken decodeNewtok validTokenState "badtok" 1000).1 = validTokenState ∧
    (updateToken decodeNewtok validTokenState "badtok" 1000).2.1.error =
      some "Invalid token format" := by
  have h := (updateToken_failure_semantics decodeNewtok validTokenState
    "badtok" 1000).1 (by decide)
  rw [h]
  exact ⟨rfl, rfl⟩

/-- C5 counterexample: with the watchdog reporting the token expired and a
valid alert and pending defense present, `executeDefense` still invokes the
review-submission operation (the call trace is non-empty) and the expired
credential surfaces as a network-layer failure, not as a pre-flight error. -/
theorem executeDefense_submits_despite_expired :
    (tokenGetStatus expiredTokenState 200).isExpired = true ∧
    (executeDefense { success := false, error := some "401 Unauthorized" } 200
        "alert_0" "r1" dbWithDefense).2.2 =
      [NetCall.postReview "profileId:7" 3 "defense comment"] ∧
    (executeDefense { success := false, error := some "401 Unauthorized" } 200
        "alert_0" "r1" dbWithDefense).2.1 = false := by
  exact ⟨rfl, by decide, rfl⟩

/-- C5 (amended): neither `executeDefense` nor `postCustomDefense` consults
the credential watchdog — whenever the alert and an active defense exist the
submission is attempted regardless of any (possibly expired) token state,
the boolean result mirrors the transport outcome, and a failed submission is
recorded by moving the defense to FAILED rather than by a distinct
pre-flight error. -/
theorem executeDefense_no_expiry_gate (tokSt : TokenState) (tnow : Int)
    (post : PostReviewResult) (now : Int) (alertId reviewId : String) (db : DB)
    (al : Alert) (d : Defense)
    (_hexp : (tokenGetStatus tokSt tnow).isExpired = true)
    (hal : db.getAlertById alertId = some al)
    (hd : db.getPendingDefense reviewId = some d) :
    (executeDefense post now alertId reviewId db).2.2 =
      [NetCall.postReview d.targetKey d.score d.comment] ∧
    (executeDefense post now alertId reviewId db).2.1 = post.success ∧
    (post.success = false →
      ∀ d2 ∈ (executeDefense post now alertId reviewId db).1.defenses,
        d2.id = d.id → d2.status = "FAILED") ∧
    (postCustomDefense post now d.targetKey d.score d.comment (some reviewId)
        db).2.2 = [NetCall.postReview d.targetKey d.score d.comment] := by
  refine ⟨?_, ?_, ?_, ?_⟩
  · cases hps : post.success <;> simp [executeDefense, hal, hd, hps]
  · cases hps : post.success <;> simp [executeDefense, hal, hd, hps]
  · intro hps d2 hd2 hid
    simp only [executeDefense, hal, hd, hps, Bool.false_eq_true, if_false,
      DB.updateDefenseStatus, List.map_map] at hd2
    obtain ⟨x, hx, rfl⟩ := List.mem_map.mp hd2
    by_cases hxid : x.id = d.id
    · simp [Function.comp, hxid]
    · simp [Function.comp, hxid] at hid
  · cases hps : post.success
    · simp [postCustomDefense, hps]
    · cases hpd : db.getPendingDefense reviewId <;>
        simp [postCustomDefense, hps, hpd]

/-- C5 witness: the amended behaviour at the concrete expired state and
store. -/
theorem executeDefense_no_expiry_gate_witness :
    (executeDefense { success := false, error := some "401 Unauthorized" } 200
        "alert_0" "r1" dbWithDefense).2.1 = false := by
  have h := (executeDefense_no_expiry_gate expiredTokenState 200
    { success := false, error := some "401 Unauthorized" } 200 "alert_0" "r1"
    dbWithDefense
    { id := "alert_0", reviewId := "r1", relationId := "1"
      type := "NEGATIVE_REVIEW", channel := "TELEGRAM" }
    { id := "defense_0", reviewId := "r1", targetKey := "profileId:7"
      score := 3, comment := "defense comment", status := "PENDING" }
    rfl (by decide) (by decide)).2.1
  simpa using h

/-- Helper: marking a review alerted does not change the (activityId,
isNegative) projection of the review table. -/
theorem proj_markAlerted (db : DB) (id : String) :
    ((db.markReviewAlerted id).reviews.map fun rv => (rv.activityId, rv.isNegative)) =
      db.reviews.map fun rv => (rv.activityId, rv.isNegative) := by
  simp only [DB.markReviewAlerted, List.map_map]
  apply List.map_congr_left
  intro x _
  by_cases hxi : x.id = id <;> simp [Function.comp, hxi]

/-- C2 counterexample: a slash activity whose carried score is "positive" is
persisted with the negativity flag cleared (`db.createReview` derives the
stored flag from the score alone), even though the claimed rule
(score < 0 OR slash) demands it be set — the slash rule only feeds the
in-cycle alert decision. -/
theorem slash_positive_stored_notNegative :
    ((processActivity cfgNoDefense {} 0 0 slashPositive "1" {} {}).1.reviews.map
      Review.isNegative) = [false] ∧
    alertDecision slashPositive = true ∧
    normalizeScore slashPositive.data.score = 1 := by
  exact ⟨by decide, by decide, by decide⟩

/-- C2 (amended): the negativity flag stored on the persisted ActivityRecord
equals (normalized score < 0) alone; the (score < 0 OR slash) rule governs
only the in-memory alert decision of the cycle, not the stored flag. -/
theorem stored_isNegative_eq_scoreNeg (cfg : AutoDefenseCfg) (ar : AlertResults)
    (r : ℚ) (now : Int) (a : EthosActivity) (relId : String) (db : DB)
    (res : MonitorResult)
    (h : db.reviewExists (computeActivityId a now) = false) :
    ((processActivity cfg ar r now a relId db res).1.reviews.map
        fun rv => (rv.activityId, rv.isNegative)) =
      (db.reviews.map fun rv => (rv.activityId, rv.isNegative)) ++
        [(computeActivityId a now, decide (normalizeScore a.data.score < 0))] ∧
    alertDecision a =
      (decide (normalizeScore a.data.score < 0) || decide (a.type = "slash")) := by
  refine ⟨?_, rfl⟩
  by_cases hneg :
      (decide (normalizeScore a.data.score < 0) || decide (a.type = "slash")) = true
  · cases hrel : db.relations.find? (fun rel => rel.id = relId) with
    | none =>
      simp [processActivity, h, hneg, hrel, DB.createReview, DB.getRelationById]
    | some rel =>
      cases hat : ar.telegram <;> cases had : ar.discord <;>
        by_cases hen : cfg.enabled <;>
        simp [processActivity, h, hneg, hrel, hat, had, hen, DB.createReview,
          DB.getRelationById, DB.createAlert, DB.createDefense, proj_markAlerted]
  · simp [processActivity, h, hneg, DB.createReview]

/-- C2 witness: the amended rule at the concrete slash-with-positive-score
activity. -/
theorem stored_isNegative_eq_scoreNeg_witness :
    ((processActivity cfgNoDefense {} 0 0 slashPositive "1" {} {}).1.reviews.map
        fun rv => (rv.activityId, rv.isNegative)) =
      [(computeActivityId slashPositive 0, false)] := by
  have h := (stored_isNegative_eq_scoreNeg cfgNoDefense {} 0 0 slashPositive "1"
    {} {} (by decide)).1
  simpa using h

/-- C7 counterexample: a negative activity whose dispatch returned a Twitter
delivery id (and nothing else) is persisted with no Alert row at all — the
cycle only persists rows for the Telegram and Discord entries, so a channel
that returned a delivery id (Twitter) gets no row, contrary to the claim. -/
theorem twitter_delivery_gets_no_alert_row :
    (processActivity cfgNoDefense { twitter := some "twitter_dm_disabled" } 0 0
        negativeReview "1" dbWithRelation {}).1.alerts = [] ∧
    ({ twitter := some "twitter_dm_disabled" } : AlertResults).twitter =
      some "twitter_dm_disabled" ∧
    alertDecision negativeReview = true := by
  exact ⟨by decide, rfl, by decide⟩

/-- C7 (amended): for a newly ingested negative activity with a resolvable
relation, exactly one Alert row is persisted per Telegram/Discord entry that
carries a delivery id, each row carrying that channel-assigned message id
and the payload type; channels without a delivery id get no row, and
Twitter delivery ids are never persisted (the TWITTER rows of the store are
untouched). -/
theorem alert_rows_telegram_discord_only (cfg : AutoDefenseCfg) (ar : AlertResults)
    (r : ℚ) (now : Int) (a : EthosActivity) (relId : String) (db : DB)
    (res : MonitorResult) (rel : Relation)
    (hex : db.reviewExists (computeActivityId a now) = false)
    (hneg : alertDecision a = true)
    (hrel : db.relations.find? (fun rl => rl.id = relId) = some rel) :
    ((processActivity cfg ar r now a relId db res).1.alerts.map
        fun al => (al.channel, al.messageId, al.reviewId, al.type)) =
      (db.alerts.map fun al => (al.channel, al.messageId, al.reviewId, al.type)) ++
        ((match ar.telegram with
          | some m => [("TELEGRAM", some m, reviewRowId a.type (computeActivityId a now),
              if a.type = "slash" then "SLASH" else "NEGATIVE_REVIEW")]
          | none => []) ++
         (match ar.discord with
          | some m => [("DISCORD", some m, reviewRowId a.type (computeActivityId a now),
              if a.type = "slash" then "SLASH" else "NEGATIVE_REVIEW")]
          | none => [])) ∧
    ((processActivity cfg ar r now a relId db res).1.alerts.filter
        fun al => al.channel = "TWITTER") =
      db.alerts.filter fun al => al.channel = "TWITTER" := by
  have hneg' :
      (decide (normalizeScore a.data.score < 0) || decide (a.type = "slash")) = true :=
    hneg
  constructor
  · cases hat : ar.telegram <;> cases had : ar.discord <;> by_cases hen : cfg.enabled <;>
      simp [processActivity, hex, hneg', hrel, hat, had, hen, DB.createReview,
        DB.getRelationById, DB.createAlert, DB.createDefense, DB.markReviewAlerted]
  · cases hat : ar.telegram <;> cases had : ar.discord <;> by_cases hen : cfg.enabled <;>
      simp [processActivity, hex, hneg', hrel, hat, had, hen, DB.createReview,
        DB.getRelationById, DB.createAlert, DB.createDefense, DB.markReviewAlerted]

/-- C7 witness: a Telegram-only delivery at the concrete negative activity
persists exactly the one TELEGRAM row with its message id. -/
theorem alert_rows_telegram_discord_only_witness :
    ((processActivity cfgNoDefense { telegram := some "tg-9" } 0 0 negativeReview
        "1" dbWithRelation {}).1.alerts.map
      fun al => (al.channel, al.messageId, al.reviewId, al.type)) =
      [("TELEGRAM", some "tg-9", "review_77", "NEGATIVE_REVIEW")] := by
  have h := (alert_rows_telegram_discord_only cfgNoDefense { telegram := some "tg-9" }
    0 0 negativeReview "1" dbWithRelation {}
    { id := "1", userkey := "profileId:7", address := "0xtarget" }
    (by decide) (by decide) (by decide)).1
  simpa using h

/-- C1 counterexample: a raw activity payload carrying no source activity id
gets a synthetic id derived from the processing instant, so feeding the very
same payload through two cycles (at instants 1000 and 2000) yields two
ActivityRecords, not one. -/
theorem processActivity_syntheticId_reingests :
    ((runMonitorCycle cfgNoDefense (envWith [reviewNoId] 2000)
        (runMonitorCycle cfgNoDefense (envWith [reviewNoId] 1000) {} {}).1
        (runMonitorCycle cfgNoDefense (envWith [reviewNoId] 1000) {} {}).2.1
      ).2.1.reviews).length = 2 := by
  decide

/-- C1 (amended): ingestion is idempotent on the computed external activity
id — when the id already has an ActivityRecord, processing the activity is a
no-op on both the store and the counters — and hence feeding the same raw
payload, provided it carries a source-supplied activity id, through two
cycles yields exactly one ActivityRecord. -/
theorem ingestion_idempotent_on_activityId (cfg : AutoDefenseCfg)
    (ar : AlertResults) (r : ℚ) (now : Int) (a : EthosActivity) (relId : String)
    (db : DB) (res : MonitorResult)
    (h : db.reviewExists (computeActivityId a now) = true) :
    processActivity cfg ar r now a relId db res = (db, res) ∧
    ((runMonitorCycle cfgNoDefense (envWith [reviewWithId] 2000)
        (runMonitorCycle cfgNoDefense (envWith [reviewWithId] 1000) {} {}).1
        (runMonitorCycle cfgNoDefense (envWith [reviewWithId] 1000) {} {}).2.1
      ).2.1.reviews).length = 1 := by
  constructor
  · simp [processActivity, h]
  · decide

/-- C1 witness: a store already holding the activity id is left untouched. -/
theorem ingestion_idempotent_on_activityId_witness :
    processActivity cfgNoDefense {} 0 5 reviewWithId "1" dbWithReview42 {} =
      (dbWithReview42, {}) :=
  (ingestion_idempotent_on_activityId cfgNoDefense {} 0 5 reviewWithId "1"
    dbWithReview42 {} (by decide)).1

end EthosMonitor
